import Mathlib

/-!
Verification development for the multi-tenant complaint-intelligence platform.

The Python source is embedded shallowly:
* Python floats are modelled as exact rationals (`ℚ`); every constant in the
  scored formulas is a small decimal literal.
* Python dicts keyed by strings are modelled either as association lists
  (`List (String × ℚ)`) with `dictGetD` playing the role of `dict.get(k, d)`,
  or as structures with `Option`-typed fields when the key set is fixed.
* Fallible code is modelled with `Except`; external library boundaries
  (bcrypt verification, the LLM provider, the PII analyzer) are parameters.
-/

namespace AgentX

/-- Models `d.get(k, v)` on a Python dict with rational values. -/
def dictGetD (d : List (String × ℚ)) (k : String) (v : ℚ) : ℚ :=
  match d with
  | [] => v
  | p :: rest => if p.1 = k then p.2 else dictGetD rest k v

/-- The sentiment dict produced by `LLMService.analyze_sentiment`; only the
`sentiment` and `emotion` keys are read by the risk scoring code, and a key
can be absent (the LLM reply is free-form JSON). -/
structure Sentiment where
  sentiment : Option String := none
  emotion : Option String := none
deriving Repr, DecidableEq

/-- The classification dict produced by `LLMService.classify_complaint` and
enriched by the Complaint Sorter; the keys read by the scoring code. -/
structure Classification where
  product_category : Option String := none
  issue_category : Option String := none
  urgency_level : Option String := none
  regulatory_flags : List String := []
  confidence_score : Option ℚ := none
deriving Repr, DecidableEq

/-! ### Risk Model Service (`backend/app/services/risk_model.py`) -/

/-- `urgency_weights` literal from `RiskModel._calculate_rule_based_risk`. -/
def urgency_weights : List (String × ℚ) :=
  [("low", 0), ("medium", 1/10), ("high", 2/10), ("critical", 3/10)]

/-- `high_risk_issues` literal from `RiskModel._calculate_rule_based_risk`. -/
def high_risk_issues : List String := ["unauthorized_charges", "fraud", "discrimination"]

/-- `RiskModel._calculate_rule_based_risk`: base 0.3, plus the urgency weight
(`urgency_weights.get(level, 0.1)` after `classification.get('urgency_level',
'medium')`), plus conditional sentiment/emotion/issue/history/amount bonuses,
capped by `min(risk_score, 1.0)`. -/
def calculate_rule_based_risk (features : List (String × ℚ)) (sentiment : Sentiment)
    (classification : Classification) : ℚ :=
  let risk_score : ℚ := 3/10
  let risk_score := risk_score +
    dictGetD urgency_weights (classification.urgency_level.getD "medium") (1/10)
  let risk_score := if sentiment.sentiment = some "negative" then risk_score + 2/10 else risk_score
  let risk_score := if sentiment.emotion = some "angry" then risk_score + 15/100 else risk_score
  let risk_score :=
    if Option.any (fun i => high_risk_issues.contains i) classification.issue_category
    then risk_score + 2/10 else risk_score
  let risk_score := if dictGetD features "historical_complaints" 0 > 2 then risk_score + 1/10 else risk_score
  let risk_score := if dictGetD features "amount_mentioned" 0 > 0 then risk_score + 1/10 else risk_score
  min risk_score 1

/-- The explanatory factors bundle built by `RiskModel._explain_risk_factors`. -/
structure RiskFactors where
  primary_factors : List String := []
  contributing_factors : List String := []
  mitigating_factors : List String := []
deriving Repr, DecidableEq

/-- `RiskModel._explain_risk_factors`. -/
def explain_risk_factors (features : List (String × ℚ)) (sentiment : Sentiment)
    (classification : Classification) : RiskFactors :=
  let primary :=
    (if Option.any (fun u => ["high", "critical"].contains u) classification.urgency_level
     then ["High urgency complaint"] else []) ++
    (if sentiment.sentiment = some "negative" then ["Negative sentiment detected"] else [])
  let contributing :=
    (if dictGetD features "historical_complaints" 0 > 1 then ["Multiple previous complaints"] else []) ++
    (if dictGetD features "amount_mentioned" 0 > 0 then ["Financial amount mentioned"] else [])
  let mitigating :=
    if dictGetD features "days_since_last_complaint" 0 > 180 then ["No recent complaints"] else []
  { primary_factors := primary, contributing_factors := contributing,
    mitigating_factors := mitigating }

/-- The dict returned by `RiskModel.predict_risk`. -/
structure RiskPrediction where
  risk_score : ℚ
  risk_category : String
  confidence : ℚ
  factors : RiskFactors
  model_version : String
deriving Repr, DecidableEq

/-- `RiskModel._default_risk_assessment`, returned when feature extraction fails. -/
def default_risk_assessment : RiskPrediction :=
  { risk_score := 1/2, risk_category := "medium", confidence := 1/2,
    factors := { primary_factors := ["Unable to assess risk"] },
    model_version := "1.0.0" }

/-- The categorization step of `RiskModel.predict_risk` (lines 196-201):
`>= 0.7` is high, `>= 0.4` is medium, otherwise low. -/
def risk_category_of_score (risk_score : ℚ) : String :=
  if risk_score ≥ 7/10 then "high"
  else if risk_score ≥ 4/10 then "medium"
  else "low"

/-- `RiskModel.predict_risk`, given the already-extracted feature dict (the
database-backed `extract_features` step is the caller's concern; an empty
feature dict is exactly the `if not features` fallback branch). -/
def predict_risk (features : List (String × ℚ)) (sentiment : Sentiment)
    (classification : Classification) : RiskPrediction :=
  if features.isEmpty then default_risk_assessment
  else
    let risk_score := calculate_rule_based_risk features sentiment classification
    { risk_score := risk_score,
      risk_category := risk_category_of_score risk_score,
      confidence := 85/100,
      factors := explain_risk_factors features sentiment classification,
      model_version := "1.0.0" }

/-! ### Facts about the rule-based risk score (claims C3, C4) -/

/-- Spec-side closed form of the urgency-independent part of the rule-based
risk sum (base plus sentiment, emotion, issue, history, and amount bonuses). -/
def rule_risk_non_urgency (features : List (String × ℚ)) (sentiment : Sentiment)
    (classification : Classification) : ℚ :=
  3/10 + (if sentiment.sentiment = some "negative" then 2/10 else 0) +
    (if sentiment.emotion = some "angry" then 15/100 else 0) +
    (if Option.any (fun i => high_risk_issues.contains i) classification.issue_category
     then 2/10 else 0) +
    (if dictGetD features "historical_complaints" 0 > 2 then 1/10 else 0) +
    (if dictGetD features "amount_mentioned" 0 > 0 then 1/10 else 0)

lemma calculate_rule_based_risk_closed_form (features : List (String × ℚ))
    (sentiment : Sentiment) (classification : Classification) :
    calculate_rule_based_risk features sentiment classification =
      min (rule_risk_non_urgency features sentiment classification +
        dictGetD urgency_weights (classification.urgency_level.getD "medium") (1/10)) 1 := by
  simp only [calculate_rule_based_risk, rule_risk_non_urgency]
  split_ifs <;> (congr 1; ring)

lemma rule_risk_non_urgency_ge (features : List (String × ℚ)) (sentiment : Sentiment)
    (classification : Classification) :
    3/10 ≤ rule_risk_non_urgency features sentiment classification := by
  simp only [rule_risk_non_urgency]
  split_ifs <;> norm_num

lemma urgency_weight_range (u : String) :
    dictGetD urgency_weights u (1/10) = 0 ∨ dictGetD urgency_weights u (1/10) = 1/10 ∨
      dictGetD urgency_weights u (1/10) = 2/10 ∨ dictGetD urgency_weights u (1/10) = 3/10 := by
  simp only [dictGetD, urgency_weights]
  split_ifs <;> norm_num

lemma capped_sum_le_capped_sum {R w₁ w₂ : ℚ} (h : w₁ ≤ w₂) :
    min (R + w₁) 1 ≤ min (R + w₂) 1 :=
  min_le_min (by linarith) le_rfl

lemma capped_sum_lt_or_tie {R w₁ w₂ : ℚ} (h : w₁ < w₂) :
    min (R + w₁) 1 < min (R + w₂) 1 ∨ (min (R + w₁) 1 = 1 ∧ min (R + w₂) 1 = 1) := by
  rcases le_or_lt 1 (R + w₁) with hc | hc
  · exact Or.inr ⟨min_eq_right hc, min_eq_right (by linarith)⟩
  · left
    rw [min_eq_left hc.le]
    exact lt_min (by linarith) hc

/-- C3: the risk-categorization step of `predict_risk` assigns "high" exactly
when the computed score is at least 0.7, "medium" exactly on [0.4, 0.7), and
"low" exactly below 0.4; in particular a score of exactly 0.7 is "high" and a
score of exactly 0.4 is "medium", and the category returned by `predict_risk`
is always the categorization of its own returned score. -/
theorem predict_risk_categorization_boundaries :
    (∀ s : ℚ, (risk_category_of_score s = "high" ↔ 7/10 ≤ s) ∧
      (risk_category_of_score s = "medium" ↔ 4/10 ≤ s ∧ s < 7/10) ∧
      (risk_category_of_score s = "low" ↔ s < 4/10)) ∧
    risk_category_of_score (7/10) = "high" ∧
    risk_category_of_score (4/10) = "medium" ∧
    (∀ (features : List (String × ℚ)) (sentiment : Sentiment) (classification : Classification),
      (predict_risk features sentiment classification).risk_category =
        risk_category_of_score (predict_risk features sentiment classification).risk_score) := by
  have key : ∀ s : ℚ, (risk_category_of_score s = "high" ↔ 7/10 ≤ s) ∧
      (risk_category_of_score s = "medium" ↔ 4/10 ≤ s ∧ s < 7/10) ∧
      (risk_category_of_score s = "low" ↔ s < 4/10) := by
    intro s
    simp only [risk_category_of_score, ge_iff_le]
    split_ifs with h1 h2
    · exact ⟨⟨fun _ => h1, fun _ => rfl⟩,
        ⟨fun h => absurd h (by decide), fun h => absurd h1 (not_le.mpr h.2)⟩,
        ⟨fun h => absurd h (by decide), fun h => absurd h1 (not_le.mpr (by linarith))⟩⟩
    · exact ⟨⟨fun h => absurd h (by decide), fun h => absurd h h1⟩,
        ⟨fun _ => ⟨h2, not_le.mp h1⟩, fun _ => rfl⟩,
        ⟨fun h => absurd h (by decide), fun h => absurd h2 (not_le.mpr h)⟩⟩
    · exact ⟨⟨fun h => absurd h (by decide), fun h => absurd h h1⟩,
        ⟨fun h => absurd h (by decide), fun h => absurd h.1 h2⟩,
        ⟨fun _ => not_le.mp h2, fun _ => rfl⟩⟩
  refine ⟨key, ?_, ?_, ?_⟩
  · exact (key (7/10)).1.mpr le_rfl
  · exact (key (4/10)).2.1.mpr ⟨le_rfl, by norm_num⟩
  · intro features sentiment classification
    simp only [predict_risk]
    split_ifs with h
    · simp only [default_risk_assessment, risk_category_of_score]
      norm_num
    · rfl

/-- C4 counterexample: with sentiment negative, emotion angry, issue "fraud",
more than two historical complaints and an amount mentioned, the uncapped sum
exceeds 1.0 for both "high" and "critical" urgency, so the capped rule-based
risk score ties at 1.0 for both levels; it is therefore not strictly
increasing in urgency with all other features held fixed. -/
theorem rule_risk_urgency_strictness_fails :
    calculate_rule_based_risk [("historical_complaints", 3), ("amount_mentioned", 1)]
        { sentiment := some "negative", emotion := some "angry" }
        { issue_category := some "fraud", urgency_level := some "critical" } =
      calculate_rule_based_risk [("historical_complaints", 3), ("amount_mentioned", 1)]
        { sentiment := some "negative", emotion := some "angry" }
        { issue_category := some "fraud", urgency_level := some "high" } ∧
    calculate_rule_based_risk [("historical_complaints", 3), ("amount_mentioned", 1)]
        { sentiment := some "negative", emotion := some "angry" }
        { issue_category := some "fraud", urgency_level := some "critical" } = 1 := by
  simp only [calculate_rule_based_risk, dictGetD, urgency_weights, high_risk_issues]
  simp
  try norm_num

/-- C4 amended: with all non-urgency inputs held fixed, the rule-based risk
score is non-decreasing in urgency level (critical ≥ high ≥ medium ≥ low);
each step is strict unless the 1.0 cap makes the two scores tie at exactly
1.0; and every output lies in [0, 1]. -/
theorem rule_risk_urgency_monotone_and_bounded (features : List (String × ℚ))
    (sentiment : Sentiment) (classification : Classification) :
    let r := fun u : String => calculate_rule_based_risk features sentiment
      { classification with urgency_level := some u }
    (∀ u : String, 0 ≤ r u ∧ r u ≤ 1) ∧
    (r "low" ≤ r "medium" ∧ r "medium" ≤ r "high" ∧ r "high" ≤ r "critical") ∧
    ((r "low" < r "medium" ∨ (r "low" = 1 ∧ r "medium" = 1)) ∧
     (r "medium" < r "high" ∨ (r "medium" = 1 ∧ r "high" = 1)) ∧
     (r "high" < r "critical" ∨ (r "high" = 1 ∧ r "critical" = 1))) := by
  intro r
  have hbase : ∀ u : String, r u =
      min (rule_risk_non_urgency features sentiment classification +
        dictGetD urgency_weights u (1/10)) 1 := by
    intro u
    show calculate_rule_based_risk _ _ _ = _
    rw [calculate_rule_based_risk_closed_form]
    have h1 : ({ classification with urgency_level := some u } : Classification).urgency_level.getD "medium" = u := rfl
    have h2 : rule_risk_non_urgency features sentiment
        { classification with urgency_level := some u } =
        rule_risk_non_urgency features sentiment classification := rfl
    rw [h1, h2]
  have hR := rule_risk_non_urgency_ge features sentiment classification
  have hw : ∀ u : String, 0 ≤ dictGetD urgency_weights u (1/10) := by
    intro u
    rcases urgency_weight_range u with h | h | h | h <;> rw [h] <;> norm_num
  have wlow : dictGetD urgency_weights "low" (1/10) = 0 := by
    simp [dictGetD, urgency_weights]
  have wmed : dictGetD urgency_weights "medium" (1/10) = 1/10 := by
    simp [dictGetD, urgency_weights]
  have whigh : dictGetD urgency_weights "high" (1/10) = 2/10 := by
    simp [dictGetD, urgency_weights]
  have wcrit : dictGetD urgency_weights "critical" (1/10) = 3/10 := by
    simp [dictGetD, urgency_weights]
  refine ⟨fun u => ⟨?_, ?_⟩, ⟨?_, ?_, ?_⟩, ?_, ?_, ?_⟩
  · rw [hbase u]
    have := hw u
    exact le_min (by linarith) (by norm_num)
  · rw [hbase u]
    exact min_le_right _ _
  · rw [hbase "low", hbase "medium", wlow, wmed]
    exact capped_sum_le_capped_sum (by norm_num)
  · rw [hbase "medium", hbase "high", wmed, whigh]
    exact capped_sum_le_capped_sum (by norm_num)
  · rw [hbase "high", hbase "critical", whigh, wcrit]
    exact capped_sum_le_capped_sum (by norm_num)
  · rw [hbase "low", hbase "medium", wlow, wmed]
    exact capped_sum_lt_or_tie (by norm_num)
  · rw [hbase "medium", hbase "high", wmed, whigh]
    exact capped_sum_lt_or_tie (by norm_num)
  · rw [hbase "high", hbase "critical", whigh, wcrit]
    exact capped_sum_lt_or_tie (by norm_num)

/-! ### Python string and number primitives used by the agents -/

/-- Models Python `s.replace(c, "")` for a one-character pattern. -/
def removeChar (c : Char) (s : String) : String :=
  String.mk (s.data.filter (fun x => x ≠ c))

/-- Helper for `splitChar`: returns the chunk before the first separator and
the list of remaining chunks. -/
def splitCharAux (c : Char) : List Char → List Char × List (List Char)
  | [] => ([], [])
  | x :: xs =>
    let r := splitCharAux c xs
    if x = c then ([], r.1 :: r.2) else (x :: r.1, r.2)

/-- Models Python `s.split(sep)` for a one-character separator `sep` (all of
the splits performed by the embedded code use one-character separators):
splits at every occurrence and keeps empty chunks. -/
def pySplit (s : String) (c : Char) : List String :=
  let r := splitCharAux c s.data
  (r.1 :: r.2).map String.mk

/-- Models Python `sep in s` for a one-character `sep`. -/
def pyContainsChar (s : String) (c : Char) : Bool :=
  s.data.contains c

/-- Accumulator pass of `digitsToNat`. -/
def digitsToNatAux : List Char → Nat → Option Nat
  | [], acc => some acc
  | c :: cs, acc =>
    if c.isDigit then digitsToNatAux cs (acc * 10 + (c.toNat - 48)) else none

/-- Reads a digit string as a natural number (`none` on a non-digit). -/
def digitsToNat (l : List Char) : Option Nat :=
  digitsToNatAux l 0

/-- Models Python `float(s)` on plain fixed-point decimal literals (optional
sign, digits, at most one dot), the only shapes produced by the code's
`str(amount).replace("$", "").replace(",", "")` pre-processing of monetary
strings. Exotic accepted forms of CPython `float` (exponents, `inf`, unicode
digits, surrounding whitespace) are out of the embedding's scope and map to
`none`, i.e. to the code's `except (ValueError, TypeError)` branch. -/
def pyFloatOfString (s : String) : Option ℚ :=
  let signAndDigits : Bool × List Char :=
    match s.data with
    | '-' :: rest => (true, rest)
    | '+' :: rest => (false, rest)
    | l => (false, l)
  let parts := splitCharAux '.' signAndDigits.2
  let magnitude : Option ℚ :=
    match parts.1, parts.2 with
    | ip, [] => if ip = [] then none else (digitsToNat ip).map (fun n => (n : ℚ))
    | ip, [fp] =>
      if ip = [] ∧ fp = [] then none
      else
        match digitsToNat ip, digitsToNat fp with
        | some i, some f => some ((i : ℚ) + (f : ℚ) / (10 : ℚ) ^ fp.length)
        | _, _ => none
    | _, _ => none
  magnitude.map (fun q => if signAndDigits.1 then -q else q)

/-- The entity dict produced by `LLMService.extract_entities` (keys `product`,
`issue`, `company`, `amount`, `date`, each absent-able/null-able). -/
structure Entities where
  product : Option String := none
  issue : Option String := none
  company : Option String := none
  amount : Option String := none
  date : Option String := none
deriving Repr, DecidableEq

/-- Models the Python truthiness test `if entities.get("amount"):` for an
optional string value: `None` and the empty string are falsy. -/
def strTruthy (amount : Option String) : Bool :=
  match amount with
  | none => false
  | some a => a ≠ ""

/-! ### Risk Checker Agent (`app/agents/risk_checker.py`) -/

/-- `urgency_multipliers` literal from
`RiskCheckerAgent._calculate_escalation_probability`. -/
def urgency_multipliers : List (String × ℚ) :=
  [("low", 8/10), ("medium", 1), ("high", 13/10), ("critical", 16/10)]

/-- `RiskCheckerAgent._calculate_escalation_probability`, lines 308-357: base
probability is `risk_prediction.get("risk_score", 0.5)`, multiplied by the
urgency multiplier, plus accumulated sentiment/amount/regulatory adjustments,
then `min(..., 0.95)` and `max(..., 0.05)`. -/
def calculate_escalation_probability (risk_score : Option ℚ) (sentiment : Sentiment)
    (classification : Classification) (entities : Entities) : ℚ :=
  let base_probability := risk_score.getD (1/2)
  let adjustments : ℚ := 0
  let adjustments :=
    if sentiment.emotion = some "angry" then adjustments + 15/100
    else if sentiment.sentiment = some "negative" then adjustments + 1/10
    else adjustments
  let urgency_level := classification.urgency_level.getD "medium"
  let base_probability := base_probability * dictGetD urgency_multipliers urgency_level 1
  let adjustments :=
    if strTruthy entities.amount then
      match pyFloatOfString (removeChar ',' (removeChar '$' (entities.amount.getD ""))) with
      | some amount =>
        if amount > 10000 then adjustments + 2/10
        else if amount > 1000 then adjustments + 1/10
        else adjustments
      | none => adjustments
    else adjustments
  let adjustments :=
    if classification.regulatory_flags ≠ [] then
      adjustments + (classification.regulatory_flags.length : ℚ) * (5/100)
    else adjustments
  let final_probability := min (base_probability + adjustments) (95/100)
  max final_probability (5/100)

/-- The `except` fallback of `_calculate_escalation_probability` (line 361). -/
def escalation_probability_error_fallback : ℚ := 1/2

/-- Spec-side sentiment adjustment: +0.15 if angry, else +0.10 if negative. -/
def spec_sentiment_adjustment (sentiment : Sentiment) : ℚ :=
  if sentiment.emotion = some "angry" then 15/100
  else if sentiment.sentiment = some "negative" then 1/10
  else 0

/-- Spec-side amount-tier adjustment: +0.20 above 10000, +0.10 above 1000. -/
def spec_amount_adjustment (amount : Option String) : ℚ :=
  if strTruthy amount then
    match pyFloatOfString (removeChar ',' (removeChar '$' (amount.getD ""))) with
    | some v => if v > 10000 then 2/10 else if v > 1000 then 1/10 else 0
    | none => 0
  else 0

/-- Spec-side regulatory adjustment: +0.05 per active regulatory flag. -/
def spec_regulatory_adjustment (classification : Classification) : ℚ :=
  (classification.regulatory_flags.length : ℚ) * (5/100)

lemma max_min_congr {x y : ℚ} (h : x = y) (c d : ℚ) :
    max (min x c) d = max (min y c) d := by rw [h]

/-- C5: the escalation probability always lies within [0.05, 0.95] (also on
the internal-error fallback path, which returns 0.5), and on the normal path
it equals the risk score multiplied by the urgency multiplier from
(low 0.8, medium 1.0, high 1.3, critical 1.6), plus the additive sentiment,
amount-tier, and per-regulatory-flag adjustments, clamped to that interval. -/
theorem escalation_probability_clamped_and_formula :
    (∀ (risk_score : Option ℚ) (sentiment : Sentiment) (classification : Classification)
      (entities : Entities),
      5/100 ≤ calculate_escalation_probability risk_score sentiment classification entities ∧
      calculate_escalation_probability risk_score sentiment classification entities ≤ 95/100 ∧
      calculate_escalation_probability risk_score sentiment classification entities =
        max (min (risk_score.getD (1/2) *
            dictGetD urgency_multipliers (classification.urgency_level.getD "medium") 1 +
            (spec_sentiment_adjustment sentiment + spec_amount_adjustment entities.amount +
              spec_regulatory_adjustment classification)) (95/100)) (5/100)) ∧
    5/100 ≤ escalation_probability_error_fallback ∧
    escalation_probability_error_fallback ≤ 95/100 := by
  refine ⟨fun risk_score sentiment classification entities => ⟨?_, ?_, ?_⟩, ?_, ?_⟩
  · exact le_max_right _ _
  · exact max_le (le_trans (min_le_right _ _) le_rfl) (by norm_num)
  · simp only [calculate_escalation_probability, spec_sentiment_adjustment,
      spec_amount_adjustment, spec_regulatory_adjustment]
    cases hA : strTruthy entities.amount
    · simp only [hA, Bool.false_eq_true, if_false]
      split_ifs <;> (try simp_all only [ne_eq, not_not, List.length_nil, Nat.cast_zero]) <;>
        exact max_min_congr (by first | ring | (push_cast; ring)) _ _
    · simp only [hA, if_true]
      rcases h : pyFloatOfString (removeChar ',' (removeChar '$' (entities.amount.getD ""))) with _ | v <;>
        simp only [h] <;> split_ifs <;>
        (try simp_all only [ne_eq, not_not, List.length_nil, Nat.cast_zero]) <;>
        exact max_min_congr (by first | ring | (push_cast; ring)) _ _
  · norm_num [escalation_probability_error_fallback]
  · norm_num [escalation_probability_error_fallback]

/-! ### Complaint Sorter Agent (`app/agents/complaint_sorter.py`) -/

/-- `urgency_weights` literal from
`ComplaintSorterAgent._calculate_priority_score` (line 312). -/
def priority_urgency_weights : List (String × ℚ) :=
  [("low", 0), ("medium", 2/10), ("high", 4/10), ("critical", 6/10)]

/-- `high_priority_issues` literal from `_calculate_priority_score`. -/
def high_priority_issues : List String := ["fraud", "unauthorized_charges", "discrimination"]

/-- `ComplaintSorterAgent._calculate_priority_score` (lines 305-334): base
0.3, plus the urgency weight (default 0.2 for an unknown level), plus the
amount-tier bonus parsed from the dollar string, plus 0.2 for a
high-priority issue category, capped by `min(score, 1.0)`. -/
def calculate_priority_score (classification : Classification) (entities : Entities) : ℚ :=
  let score : ℚ := 3/10
  let score := score +
    dictGetD priority_urgency_weights (classification.urgency_level.getD "medium") (2/10)
  let score :=
    if strTruthy entities.amount then
      match pyFloatOfString (removeChar ',' (removeChar '$' (entities.amount.getD ""))) with
      | some amount =>
        if amount > 10000 then score + 3/10
        else if amount > 1000 then score + 2/10
        else if amount > 100 then score + 1/10
        else score
      | none => score
    else score
  let score :=
    if Option.any (fun i => high_priority_issues.contains i) classification.issue_category
    then score + 2/10 else score
  min score 1

/-- Spec-side amount-tier bonus for the priority score:
+0.3 above 10000, +0.2 above 1000, +0.1 above 100. -/
def spec_priority_amount_bonus (amount : Option String) : ℚ :=
  if strTruthy amount then
    match pyFloatOfString (removeChar ',' (removeChar '$' (amount.getD ""))) with
    | some v => if v > 10000 then 3/10 else if v > 1000 then 2/10 else if v > 100 then 1/10 else 0
    | none => 0
  else 0

/-- Spec-side high-priority-issue bonus for the priority score. -/
def spec_priority_issue_bonus (classification : Classification) : ℚ :=
  if Option.any (fun i => high_priority_issues.contains i) classification.issue_category
  then 2/10 else 0

/-- C8: a critical-urgency fraud classification with an extracted amount of
"$15,000" receives priority score min(0.3 + 0.6 + 0.3 + 0.2, 1.0) = 1.0, and
in general the priority score equals base 0.3 plus the urgency weight, plus
the amount-tier bonus, plus the high-priority-issue bonus, capped at 1.0. -/
theorem priority_score_formula_and_example :
    calculate_priority_score
        { urgency_level := some "critical", issue_category := some "fraud" }
        { amount := some "$15,000" } = 1 ∧
    min ((3:ℚ)/10 + 6/10 + 3/10 + 2/10) 1 = 1 ∧
    (∀ (classification : Classification) (entities : Entities),
      calculate_priority_score classification entities =
        min (3/10 +
          dictGetD priority_urgency_weights (classification.urgency_level.getD "medium") (2/10) +
          spec_priority_amount_bonus entities.amount +
          spec_priority_issue_bonus classification) 1) := by
  have formula : ∀ (classification : Classification) (entities : Entities),
      calculate_priority_score classification entities =
        min (3/10 +
          dictGetD priority_urgency_weights (classification.urgency_level.getD "medium") (2/10) +
          spec_priority_amount_bonus entities.amount +
          spec_priority_issue_bonus classification) 1 := by
    intro classification entities
    simp only [calculate_priority_score, spec_priority_amount_bonus, spec_priority_issue_bonus]
    cases hA : strTruthy entities.amount
    · simp only [hA, Bool.false_eq_true, if_false]
      split_ifs <;> (congr 1 <;> ring)
    · simp only [hA, if_true]
      rcases h : pyFloatOfString (removeChar ',' (removeChar '$' (entities.amount.getD ""))) with _ | v <;>
        simp only [h] <;> split_ifs <;> (congr 1 <;> ring)
  refine ⟨?_, by norm_num, formula⟩
  rw [formula]
  have hparse : pyFloatOfString (removeChar ','
      (removeChar '$' ((some "$15,000" : Option String).getD ""))) = some ((15000 : ℕ) : ℚ) := rfl
  simp only [spec_priority_amount_bonus, spec_priority_issue_bonus, strTruthy, hparse]
  simp [dictGetD, priority_urgency_weights, high_priority_issues, Option.any]
  norm_num

/-! ### Authentication service and endpoints (`backend/app/routers/auth.py`) -/

/-- A row of the `users` table. -/
structure User where
  id : String
  email : String
  hashed_password : String
  first_name : String := ""
  last_name : String := ""
  tenant_id : String
  role : String := "consumer"
  is_active : Bool := true
deriving Repr, DecidableEq

/-- The Python exceptions that the embedded code can raise. -/
inductive PyError where
  | nameError (name : String)
  | multipleResultsFound
deriving Repr, DecidableEq

/-- A FastAPI `HTTPException` (status code and detail message). -/
structure HTTPException where
  status_code : Nat
  detail : String
deriving Repr, DecidableEq

/-- SQLAlchemy `Result.scalar_one_or_none()`: `none` on zero rows, the row on
exactly one row, and a `MultipleResultsFound` error on more than one. -/
def scalar_one_or_none {α : Type} (rows : List α) : Except PyError (Option α) :=
  match rows with
  | [] => .ok none
  | [x] => .ok (some x)
  | _ => .error .multipleResultsFound

/-- The rows selected by `get_user_by_email`: active users filtered by email
and tenant. -/
def users_matching (users : List User) (email tenant_id : String) : List User :=
  users.filter (fun u => u.email == email && u.tenant_id == tenant_id && u.is_active)

/-- `get_user_by_email(db, email, tenant_id)`. -/
def get_user_by_email (users : List User) (email tenant_id : String) :
    Except PyError (Option User) :=
  scalar_one_or_none (users_matching users email tenant_id)

/-- `authenticate_user(db, email, password, tenant_id)`: `None` both when no
active user matches and when the bcrypt check fails; the bcrypt boundary
`verify_password` is the parameter `verify`. -/
def authenticate_user (verify : String → String → Bool) (users : List User)
    (email password tenant_id : String) : Except PyError (Option User) :=
  match get_user_by_email users email tenant_id with
  | .error e => .error e
  | .ok none => .ok none
  | .ok (some user) =>
    if verify password user.hashed_password then .ok (some user) else .ok none

/-- The signed-claims payload of `create_access_token` (the `jose.jwt.encode`
signing step is the library boundary; the embedding keeps the claims). -/
structure TokenPayload where
  sub : String
  tenant_id : String
  role : String
  expires_minutes : Nat
deriving Repr, DecidableEq

/-- `create_access_token` with the expiry the login endpoints pass
(`ACCESS_TOKEN_EXPIRE_MINUTES`, carried here as `expires_minutes`). -/
def create_access_token (sub tenant_id role : String) (expires_minutes : Nat) : TokenPayload :=
  { sub := sub, tenant_id := tenant_id, role := role, expires_minutes := expires_minutes }

/-- The `Token` response schema. -/
structure Token where
  access_token : TokenPayload
  token_type : String
  expires_in : Nat
  user_id : String
  tenant_id : String
  role : String
deriving Repr, DecidableEq

/-- The `/login` endpoint `login_user`: a failed authentication (either
cause) is a 401 "Incorrect credentials"; an internal error becomes the
generic 500 of the outer `except`. -/
def login_user (verify : String → String → Bool) (users : List User)
    (email password tenant_id : String) (expire_minutes : Nat) :
    Except HTTPException Token :=
  match authenticate_user verify users email password tenant_id with
  | .error _ => .error { status_code := 500, detail := "Login failed" }
  | .ok none => .error { status_code := 401, detail := "Incorrect credentials" }
  | .ok (some user) =>
    .ok { access_token := create_access_token user.id user.tenant_id user.role expire_minutes,
          token_type := "bearer", expires_in := expire_minutes * 60,
          user_id := user.id, tenant_id := user.tenant_id, role := user.role }

/-- The combined-username parsing step of `login_for_access_token`
(lines 178-192): reject when no "@" or when splitting on "@" does not give
exactly two parts; the email is part 0 plus "@" plus the text of part 1
before its first "_"; the tenant id is the text of part 1 after its last
"_", or the literal "default" when part 1 has no "_". -/
def parse_combined_username (username : String) : Except HTTPException (String × String) :=
  if ¬ pyContainsChar username '@' then
    .error { status_code := 400, detail := "Invalid username format" }
  else
    let email_parts := pySplit username '@'
    if email_parts.length ≠ 2 then
      .error { status_code := 400, detail := "Invalid username format" }
    else
      let email := email_parts.getD 0 "" ++ "@" ++ (pySplit (email_parts.getD 1 "") '_').headD ""
      let tenant_id :=
        if pyContainsChar (email_parts.getD 1 "") '_' then
          (pySplit (email_parts.getD 1 "") '_').getLastD ""
        else "default"
      .ok (email, tenant_id)

/-- The authentication-and-token tail of `login_for_access_token`
(lines 194-215), shared so the parsing step's output is visible. -/
def issue_token_for (verify : String → String → Bool) (users : List User)
    (email password tenant_id : String) (expire_minutes : Nat) :
    Except HTTPException Token :=
  match authenticate_user verify users email password tenant_id with
  | .error _ => .error { status_code := 500, detail := "Login failed" }
  | .ok none => .error { status_code := 401, detail := "Incorrect email or password" }
  | .ok (some user) =>
    .ok { access_token := create_access_token user.id user.tenant_id user.role expire_minutes,
          token_type := "bearer", expires_in := expire_minutes * 60,
          user_id := user.id, tenant_id := user.tenant_id, role := user.role }

/-- The `/token` endpoint `login_for_access_token`. -/
def login_for_access_token (verify : String → String → Bool) (users : List User)
    (username password : String) (expire_minutes : Nat) : Except HTTPException Token :=
  match parse_combined_username username with
  | .error e => .error e
  | .ok (email, tenant_id) => issue_token_for verify users email password tenant_id expire_minutes

lemma splitCharAux_snd_length (c : Char) (l : List Char) :
    ((splitCharAux c l).2).length = l.count c := by
  induction l with
  | nil => rfl
  | cons x xs ih =>
    by_cases h : x = c
    · subst h
      simp [splitCharAux, ih]
    · simp [splitCharAux, ih, h, List.count_cons, Ne.symm h]

lemma pySplit_two_contains {u : String} {a b : String} (h : pySplit u '@' = [a, b]) :
    pyContainsChar u '@' = true := by
  have hlen : ((splitCharAux '@' u.data).2).length = 1 := by
    have h2 : (pySplit u '@').length = 2 := by rw [h]; rfl
    simpa [pySplit] using h2
  have hcount : u.data.count '@' = 1 := by rw [← splitCharAux_snd_length]; exact hlen
  have hmem : '@' ∈ u.data := List.count_pos_iff.mp (by omega)
  simp only [pyContainsChar]
  simpa using hmem

lemma pySplit_no_sep {s : String} {c : Char} (h : pyContainsChar s c = false) :
    pySplit s c = [s] := by
  have hmem : c ∉ s.data := by
    simp only [pyContainsChar] at h
    simpa using h
  have haux : ∀ l : List Char, c ∉ l → splitCharAux c l = (l, []) := by
    intro l
    induction l with
    | nil => intro _; rfl
    | cons x xs ih =>
      intro hl
      have hx : x ≠ c := fun e => hl (e ▸ List.mem_cons_self x xs)
      have hxs : c ∉ xs := fun e => hl (List.mem_cons_of_mem x e)
      simp only [splitCharAux, ih hxs, if_neg hx]
  simp [pySplit, haux s.data hmem]

/-- C10: after the one-"@" check, the form login reconstructs the email as
the text before the first underscore of the post-"@" segment and takes the
tenant id as the text after its last underscore, silently defaulting the
tenant id to the literal "default" when the segment has no underscore; a
plain "user@example.com" username therefore attempts authentication
against tenant "default". -/
theorem combined_username_parsing_defaults_tenant :
    (∀ u a b : String, pySplit u '@' = [a, b] →
      (pyContainsChar b '_' = false →
        parse_combined_username u = Except.ok (a ++ "@" ++ b, "default")) ∧
      (pyContainsChar b '_' = true →
        parse_combined_username u =
          Except.ok (a ++ "@" ++ (pySplit b '_').headD "", (pySplit b '_').getLastD ""))) ∧
    parse_combined_username "user@example.com" = Except.ok ("user@example.com", "default") ∧
    (∀ (verify : String → String → Bool) (users : List User) (password : String) (m : Nat),
      login_for_access_token verify users "user@example.com" password m =
        issue_token_for verify users "user@example.com" password "default" m) := by
  have general : ∀ u a b : String, pySplit u '@' = [a, b] →
      (pyContainsChar b '_' = false →
        parse_combined_username u = Except.ok (a ++ "@" ++ b, "default")) ∧
      (pyContainsChar b '_' = true →
        parse_combined_username u =
          Except.ok (a ++ "@" ++ (pySplit b '_').headD "", (pySplit b '_').getLastD "")) := by
    intro u a b h
    have hat := pySplit_two_contains h
    constructor
    · intro hnb
      rw [parse_combined_username, if_neg (by simp [hat]), h]
      simp [pySplit_no_sep hnb, hnb]
    · intro hb
      rw [parse_combined_username, if_neg (by simp [hat]), h]
      simp [hb]
  refine ⟨general, ?_, ?_⟩
  · exact (general "user@example.com" "user" "example.com" (by decide)).1 (by decide)
  · intro verify users password m
    rfl

/-- C6: a missing (or inactive) user and a wrong password produce the same
`None` from `authenticate_user`, and the `/login` endpoint maps both to the
same 401 error, so the caller cannot distinguish the two causes. -/
theorem authenticate_user_indistinguishable
    (verify : String → String → Bool)
    (users₁ : List User) (e₁ p₁ t₁ : String)
    (h₁ : users_matching users₁ e₁ t₁ = [])
    (users₂ : List User) (e₂ p₂ t₂ : String) (u : User)
    (h₂ : users_matching users₂ e₂ t₂ = [u])
    (hv : verify p₂ u.hashed_password = false) (m : Nat) :
    authenticate_user verify users₁ e₁ p₁ t₁ = Except.ok none ∧
    authenticate_user verify users₂ e₂ p₂ t₂ = Except.ok none ∧
    login_user verify users₁ e₁ p₁ t₁ m = login_user verify users₂ e₂ p₂ t₂ m ∧
    login_user verify users₁ e₁ p₁ t₁ m =
      Except.error { status_code := 401, detail := "Incorrect credentials" } := by
  have a₁ : authenticate_user verify users₁ e₁ p₁ t₁ = Except.ok none := by
    simp [authenticate_user, get_user_by_email, h₁, scalar_one_or_none]
  have a₂ : authenticate_user verify users₂ e₂ p₂ t₂ = Except.ok none := by
    simp [authenticate_user, get_user_by_email, h₂, scalar_one_or_none, hv]
  refine ⟨a₁, a₂, ?_, ?_⟩
  · simp [login_user, a₁, a₂]
  · simp [login_user, a₁]

/-- Concrete user record for the C6 witness. -/
def witness_user : User :=
  { id := "u1", email := "ann@example.com", hashed_password := "bcrypt-hash",
    tenant_id := "t1" }

/-- Witness for C6: at a concrete empty tenant and a concrete tenant holding
exactly one matching user whose password check fails, the hypotheses hold
and the two login outcomes coincide. -/
theorem authenticate_user_indistinguishable_witness :
    users_matching [] "ann@example.com" "t1" = [] ∧
    users_matching [witness_user] "ann@example.com" "t1" = [witness_user] ∧
    (fun _ _ => false : String → String → Bool) "pw" witness_user.hashed_password = false ∧
    login_user (fun _ _ => false) [] "ann@example.com" "pw" "t1" 30 =
      login_user (fun _ _ => false) [witness_user] "ann@example.com" "pw" "t1" 30 :=
  ⟨rfl, rfl, rfl,
    (authenticate_user_indistinguishable (fun _ _ => false) [] "ann@example.com" "pw" "t1" rfl
      [witness_user] "ann@example.com" "pw" "t1" witness_user rfl rfl 30).2.2.1⟩

/-- Witness for C10: "user@example.com" splits on "@" into a two-element
list whose second part has no underscore, and the theorem's parsing
conclusion holds there. -/
theorem combined_username_parsing_defaults_tenant_witness :
    pySplit "user@example.com" '@' = ["user", "example.com"] ∧
    pyContainsChar "example.com" '_' = false ∧
    parse_combined_username "user@example.com" =
      Except.ok ("user" ++ "@" ++ "example.com", "default") :=
  ⟨by decide, by decide,
    (combined_username_parsing_defaults_tenant.1 "user@example.com" "user" "example.com"
      (by decide)).1 (by decide)⟩

/-! ### Admin API (`backend/app/routers/admin.py`) -/

/-- A row of the `audit_logs` table (the JSON payload is modelled as string
pairs, the only payload shapes the embedded endpoint writes). -/
structure AuditLogRow where
  tenant_id : String
  user_id : Option String := none
  action : String
  payload : List (String × String) := []
deriving Repr, DecidableEq

/-- The slice of the database touched by the deactivate-user endpoint. -/
structure AdminDb where
  users : List User
  audit_logs : List AuditLogRow
deriving Repr, DecidableEq

/-- The success payload returned by `deactivate_user`. -/
structure DeactivateMessage where
  message : String
  user_id : String
deriving Repr, DecidableEq

/-- `deactivate_user(user_id, db, current_user)` (lines 344-398) with its
`require_admin_role` dependency gate: tenant-scoped `scalar_one_or_none`
lookup, 404 when absent, 400 on self-deactivation, otherwise the
`is_active = False` update commit followed by the audit-log insert commit.
Returns the endpoint outcome and the database state after the handler
(unchanged on every error path, where no commit has happened). -/
def deactivate_user (db : AdminDb) (current_user : User) (user_id : String) :
    Except HTTPException DeactivateMessage × AdminDb :=
  if ¬ (current_user.role = "admin" ∨ current_user.role = "regulator") then
    (.error { status_code := 403, detail := "Admin access required" }, db)
  else
    match scalar_one_or_none (db.users.filter
        (fun u => u.id == user_id && u.tenant_id == current_user.tenant_id)) with
    | .error _ => (.error { status_code := 500, detail := "Failed to deactivate user" }, db)
    | .ok none => (.error { status_code := 404, detail := "User not found" }, db)
    | .ok (some user) =>
      if user.id = current_user.id then
        (.error { status_code := 400, detail := "Cannot deactivate your own account" }, db)
      else
        let users := db.users.map (fun u =>
          if u.id == user.id then { u with is_active := false } else u)
        let audit : AuditLogRow :=
          { tenant_id := current_user.tenant_id, user_id := some current_user.id,
            action := "user_deactivated",
            payload := [("user_id", user_id), ("email", user.email)] }
        (.ok { message := "User deactivated successfully", user_id := user_id },
         { users := users, audit_logs := db.audit_logs ++ [audit] })

/-- C9: an admin (or regulator) deactivating their own user id receives a
400 error with no state change (the caller stays active and no audit row is
written); deactivating a different user of the same tenant flips that user's
`is_active` to false and appends exactly one `user_deactivated` audit row. -/
theorem deactivate_user_self_guard_and_audit
    (db : AdminDb) (current_user target : User)
    (hrole : current_user.role = "admin" ∨ current_user.role = "regulator")
    (hself : db.users.filter
      (fun u => u.id == current_user.id && u.tenant_id == current_user.tenant_id) = [current_user])
    (hother : db.users.filter
      (fun u => u.id == target.id && u.tenant_id == current_user.tenant_id) = [target])
    (hne : target.id ≠ current_user.id) :
    deactivate_user db current_user current_user.id =
      (Except.error { status_code := 400, detail := "Cannot deactivate your own account" }, db) ∧
    (deactivate_user db current_user target.id).1 =
      Except.ok { message := "User deactivated successfully", user_id := target.id } ∧
    (deactivate_user db current_user target.id).2.users =
      db.users.map (fun u => if u.id == target.id then { u with is_active := false } else u) ∧
    (deactivate_user db current_user target.id).2.audit_logs =
      db.audit_logs ++ [({ tenant_id := current_user.tenant_id,
                           user_id := some current_user.id,
                           action := "user_deactivated",
                           payload := [("user_id", target.id), ("email", target.email)] } :
        AuditLogRow)] := by
  have hgate := not_not_intro hrole
  refine ⟨?_, ?_, ?_, ?_⟩
  · simp [deactivate_user, hgate, hself, scalar_one_or_none]
  · simp [deactivate_user, hgate, hother, scalar_one_or_none, hne]
  · simp [deactivate_user, hgate, hother, scalar_one_or_none, hne]
  · simp [deactivate_user, hgate, hother, scalar_one_or_none, hne]

/-- Concrete admin for the C9 witness. -/
def witness_admin : User :=
  { id := "a1", email := "admin@example.com", hashed_password := "h1",
    tenant_id := "t1", role := "admin" }

/-- Concrete same-tenant consumer for the C9 witness. -/
def witness_bob : User :=
  { id := "u2", email := "bob@example.com", hashed_password := "h2", tenant_id := "t1" }

/-- Concrete database for the C9 witness. -/
def witness_admin_db : AdminDb :=
  { users := [witness_admin, witness_bob], audit_logs := [] }

/-- Witness for C9 at a concrete two-user tenant: self-deactivation is the
400 error with the database unchanged, and deactivating the other user
succeeds. -/
theorem deactivate_user_self_guard_and_audit_witness :
    deactivate_user witness_admin_db witness_admin witness_admin.id =
      (Except.error { status_code := 400, detail := "Cannot deactivate your own account" },
        witness_admin_db) ∧
    (deactivate_user witness_admin_db witness_admin witness_bob.id).1 =
      Except.ok { message := "User deactivated successfully", user_id := witness_bob.id } :=
  have h := deactivate_user_self_guard_and_audit witness_admin_db witness_admin witness_bob
    (Or.inl rfl) (by decide) (by decide) (by decide)
  ⟨h.1, h.2.1⟩

/-! ### Embedding Service (`backend/app/services/embeddings.py`) -/

/-- A row of `complaints_raw` (timestamps as naturals; the serialized
embedding column matters only through `embedding IS NOT NULL`). -/
structure ComplaintRow where
  id : Nat
  tenant_id : String
  user_id : Option String := none
  narrative : String := ""
  product : Option String := none
  issue : Option String := none
  company : Option String := none
  embedding : Option String := none
  created_at : Nat := 0
deriving Repr, DecidableEq

/-- A row of `risk_scores`. -/
structure RiskScoreRow where
  id : Nat
  complaint_id : Nat
  tenant_id : String
  risk : ℚ
  category : String
  factors : List (String × String) := []
  model_version : String := "1.0.0"
  confidence : Option ℚ := none
  created_at : Nat := 0
deriving Repr, DecidableEq

/-- The database slice read by the similarity query. -/
structure ComplaintsDb where
  complaints_raw : List ComplaintRow
  risk_scores : List RiskScoreRow
deriving Repr, DecidableEq

/-- One output dict of `find_similar_complaints`. -/
structure SimilarComplaint where
  id : Nat
  narrative : String
  product : Option String
  issue : Option String
  company : Option String
  created_at : Nat
  risk_score : Option ℚ
  risk_category : Option String
  similarity_score : ℚ
deriving Repr, DecidableEq

/-- `LEFT JOIN risk_scores r ON c.id = r.complaint_id` for one complaint:
one joined row per matching risk row, or a single null-extended row when no
risk row matches. -/
def left_join_risks (risks : List RiskScoreRow) (c : ComplaintRow) :
    List (ComplaintRow × Option RiskScoreRow) :=
  match risks.filter (fun r => r.complaint_id == c.id) with
  | [] => [(c, none)]
  | rs => rs.map (fun r => (c, some r))

/-- `ORDER BY c.created_at DESC` on the joined rows, as a stable sort (SQL
fixes only the key order; the embedding picks the stable realization). -/
def order_by_created_desc (rows : List (ComplaintRow × Option RiskScoreRow)) :
    List (ComplaintRow × Option RiskScoreRow) :=
  rows.insertionSort (fun x y => y.1.created_at ≤ x.1.created_at)

/-- `EmbeddingService.find_similar_complaints` (lines 68-125): computes the
query embedding (on provider failure the outer `except` returns `[]`; the
flag `embed_fails` is that external boundary) but never passes it to the SQL
query; selects the tenant's complaints that have a stored embedding,
left-joined to their risk rows, ordered newest-complaint-first with `LIMIT`
applied to the joined rows; each output dict carries the constant 0.85
placeholder `similarity_score`. The `query_text` argument only feeds the
unused embedding. -/
def find_similar_complaints (embed_fails : Bool) (db : ComplaintsDb)
    (query_text tenant_id : String) (limit : Nat) : List SimilarComplaint :=
  if embed_fails then []
  else
    let selected := db.complaints_raw.filter
      (fun c => c.tenant_id == tenant_id && c.embedding.isSome)
    let joined := selected.bind (left_join_risks db.risk_scores)
    let ordered := order_by_created_desc joined
    (ordered.take limit).map (fun row =>
      { id := row.1.id, narrative := row.1.narrative, product := row.1.product,
        issue := row.1.issue, company := row.1.company, created_at := row.1.created_at,
        risk_score := row.2.map (fun r => r.risk),
        risk_category := row.2.map (fun r => r.category),
        similarity_score := 85/100 })

/-- Concrete database for the C7 counterexample: one embedded complaint of
tenant "t1" carrying two risk-score rows (an old 0.2 and a newer 0.9). -/
def two_risk_db : ComplaintsDb :=
  { complaints_raw := [{ id := 1, tenant_id := "t1", narrative := "Card was charged twice",
                         embedding := some "[0.1]", created_at := 100 }],
    risk_scores := [{ id := 1, complaint_id := 1, tenant_id := "t1", risk := 2/10,
                      category := "low", created_at := 10 },
                    { id := 2, complaint_id := 1, tenant_id := "t1", risk := 9/10,
                      category := "high", created_at := 20 }] }

/-- C7 counterexample: with one complaint owning two risk rows, the query
returns that complaint twice — one output row per risk row, the first of
which carries the old risk 0.2 rather than the complaint's most recent risk
0.9 (created later, at time 20) — so the result is not "each complaint
joined with its most recent risk score". -/
theorem find_similar_duplicates_complaint_rows :
    (find_similar_complaints false two_risk_db "query text" "t1" 10).map
      (fun e => e.id) = [1, 1] ∧
    (find_similar_complaints false two_risk_db "query text" "t1" 10).map
      (fun e => e.risk_score) = [some (2/10), some (9/10)] ∧
    (two_risk_db.risk_scores.filter (fun r => r.complaint_id == 1)).map
      (fun r => r.created_at) = [10, 20] :=
  ⟨rfl, rfl, rfl⟩

/-- C7 amended: `find_similar_complaints` ignores the query text (the query
embedding is computed but unused for ranking), returns at most `limit` rows
annotated with the constant placeholder similarity 0.85, ordered by the
owning complaint's creation time descending, drawn from the tenant's
complaints that have a stored embedding, and each row is joined with one of
that complaint's risk-score rows (one output row per risk row, not the most
recent one) or a null risk when the complaint has none. -/
theorem find_similar_recency_and_placeholder (embed_fails : Bool) (db : ComplaintsDb)
    (q q' tenant_id : String) (limit : Nat) :
    find_similar_complaints embed_fails db q tenant_id limit =
      find_similar_complaints embed_fails db q' tenant_id limit ∧
    (find_similar_complaints embed_fails db q tenant_id limit).length ≤ limit ∧
    List.Pairwise (fun a b => b.created_at ≤ a.created_at)
      (find_similar_complaints embed_fails db q tenant_id limit) ∧
    (∀ e ∈ find_similar_complaints embed_fails db q tenant_id limit,
      e.similarity_score = 85/100 ∧
      (∃ c ∈ db.complaints_raw, c.tenant_id = tenant_id ∧ c.embedding.isSome ∧
        c.id = e.id ∧ c.created_at = e.created_at) ∧
      ((e.risk_score = none ∧
        db.risk_scores.filter (fun r => r.complaint_id == e.id) = []) ∨
       (∃ r ∈ db.risk_scores, r.complaint_id = e.id ∧
        e.risk_score = some r.risk ∧ e.risk_category = some r.category))) := by
  refine ⟨rfl, ?_, ?_, ?_⟩
  · by_cases hf : embed_fails
    · simp [find_similar_complaints, hf]
    · simp only [find_similar_complaints, if_neg hf, List.length_map, List.length_take]
      exact min_le_left _ _
  · by_cases hf : embed_fails
    · simp [find_similar_complaints, hf]
    · simp only [find_similar_complaints, if_neg hf]
      haveI htr : IsTrans (ComplaintRow × Option RiskScoreRow)
          (fun x y => y.1.created_at ≤ x.1.created_at) :=
        ⟨fun _ _ _ hab hbc => le_trans hbc hab⟩
      haveI hto : IsTotal (ComplaintRow × Option RiskScoreRow)
          (fun x y => y.1.created_at ≤ x.1.created_at) :=
        ⟨fun a b => le_total b.1.created_at a.1.created_at⟩
      rw [List.pairwise_map]
      exact List.Pairwise.sublist (List.take_sublist _ _)
        (List.sorted_insertionSort _ _)
  · intro e he
    by_cases hf : embed_fails
    · simp [find_similar_complaints, hf] at he
    · simp only [find_similar_complaints, if_neg hf, List.mem_map] at he
      obtain ⟨row, hrow, hrow_eq⟩ := he
      have hrow_mem : row ∈ order_by_created_desc
          ((db.complaints_raw.filter
            (fun c => c.tenant_id == tenant_id && c.embedding.isSome)).bind
            (left_join_risks db.risk_scores)) := List.take_subset _ _ hrow
      have hrow_joined : row ∈ (db.complaints_raw.filter
          (fun c => c.tenant_id == tenant_id && c.embedding.isSome)).bind
          (left_join_risks db.risk_scores) :=
        (List.perm_insertionSort _ _).mem_iff.mp hrow_mem
      rw [List.mem_bind] at hrow_joined
      obtain ⟨c, hc, hrowc⟩ := hrow_joined
      rw [List.mem_filter] at hc
      obtain ⟨hcmem, hcprop⟩ := hc
      have hct : c.tenant_id = tenant_id ∧ c.embedding.isSome := by
        have := hcprop
        simp only [Bool.and_eq_true, beq_iff_eq] at this
        exact ⟨this.1, this.2⟩
      refine ⟨?_, ⟨c, hcmem, hct.1, hct.2, ?_, ?_⟩, ?_⟩
      · rw [← hrow_eq]
      · rw [← hrow_eq]
        rcases h : db.risk_scores.filter (fun r => r.complaint_id == c.id) with _ | ⟨r0, rs⟩ <;>
          simp only [left_join_risks, h] at hrowc
        · simp only [List.mem_singleton] at hrowc
          rw [hrowc]
        · rw [List.mem_map] at hrowc
          obtain ⟨r, _, hr_eq⟩ := hrowc
          rw [← hr_eq]
      · rw [← hrow_eq]
        rcases h : db.risk_scores.filter (fun r => r.complaint_id == c.id) with _ | ⟨r0, rs⟩ <;>
          simp only [left_join_risks, h] at hrowc
        · simp only [List.mem_singleton] at hrowc
          rw [hrowc]
        · rw [List.mem_map] at hrowc
          obtain ⟨r, _, hr_eq⟩ := hrowc
          rw [← hr_eq]
      · rcases h : db.risk_scores.filter (fun r => r.complaint_id == c.id) with _ | ⟨r0, rs⟩ <;>
          simp only [left_join_risks, h] at hrowc
        · left
          simp only [List.mem_singleton] at hrowc
          have hid : e.id = c.id := by rw [← hrow_eq, hrowc]
          have hrs : e.risk_score = none := by rw [← hrow_eq, hrowc]; rfl
          rw [hid]
          exact ⟨hrs, h⟩
        · right
          rw [List.mem_map] at hrowc
          obtain ⟨r, hrmem, hr_eq⟩ := hrowc
          have hrfilter : r ∈ db.risk_scores ∧ (r.complaint_id == c.id) = true :=
            List.mem_filter.mp (h ▸ hrmem)
          refine ⟨r, hrfilter.1, ?_, ?_, ?_⟩
          · have : e.id = c.id := by rw [← hrow_eq, ← hr_eq]
            rw [this]
            exact beq_iff_eq.mp hrfilter.2
          · rw [← hrow_eq, ← hr_eq]
            rfl
          · rw [← hrow_eq, ← hr_eq]
            rfl

/-- The first output row of `find_similar_complaints` on `two_risk_db`. -/
def two_risk_entry : SimilarComplaint :=
  { id := 1, narrative := "Card was charged twice", product := none, issue := none,
    company := none, created_at := 100, risk_score := some (2/10),
    risk_category := some "low", similarity_score := 85/100 }

/-- Witness for the amended C7 theorem at the concrete database: the first
returned row is a member of the output and the theorem yields its constant
0.85 placeholder similarity there. -/
theorem find_similar_recency_and_placeholder_witness :
    two_risk_entry ∈ find_similar_complaints false two_risk_db "query text" "t1" 10 ∧
    two_risk_entry.similarity_score = 85/100 :=
  have hmem : two_risk_entry ∈ find_similar_complaints false two_risk_db "query text" "t1" 10 :=
    List.mem_cons_self _ _
  ⟨hmem, ((find_similar_recency_and_placeholder false two_risk_db "query text" "another query"
    "t1" 10).2.2.2 two_risk_entry hmem).1⟩

/-! ### Further Python string primitives used by the Complaint Reader -/

/-- Models Python `sub in s` substring membership: `listStartsWith` is the
prefix test. -/
def listStartsWith : List Char → List Char → Bool
  | [], _ => true
  | _ :: _, [] => false
  | a :: as, b :: bs => a = b && listStartsWith as bs

/-- Substring search over character lists. -/
def listContainsSub (needle : List Char) : List Char → Bool
  | [] => needle.isEmpty
  | h :: t => listStartsWith needle (h :: t) || listContainsSub needle t

/-- Models Python `sub in s` for strings. -/
def pyInSubstr (needle haystack : String) : Bool :=
  listContainsSub needle.data haystack.data

/-- Models Python `s.lower()` (ASCII case folding; the vocabulary words the
code searches for are plain ASCII). -/
def pyLower (s : String) : String :=
  String.mk (s.data.map Char.toLower)

/-- Splits a character list at every character satisfying `p`. -/
def splitPred (p : Char → Bool) : List Char → List Char × List (List Char)
  | [] => ([], [])
  | x :: xs =>
    let r := splitPred p xs
    if p x then ([], r.1 :: r.2) else (x :: r.1, r.2)

/-- Models Python `s.split()` (whitespace runs, empties dropped), used only
for the reader's word count. -/
def pyWords (s : String) : List String :=
  let r := splitPred (fun c => c.isWhitespace) s.data
  ((r.1 :: r.2).map String.mk).filter (fun w => w ≠ "")

/-! ### Complaint Reader Agent (`backend/app/agents/complaint_reader.py`) -/

/-- External boundaries of the first pipeline stage: the presidio analyzer
(`pii_results`, the list of detected PII spans) and anonymizer
(`anonymize`), the LLM provider (`none` models a provider or JSON-parse
failure, from which the LLM service methods return the empty dict), and the
embedding provider (`embed_fails = true` models `create_embedding` raising,
with `embed_error` the exception text). -/
structure AgentEnv where
  pii_results : String → List String
  anonymize : String → List String → String
  llm_entities : String → Option Entities
  llm_sentiment : String → Option Sentiment
  embed_fails : Bool
  embed_error : String

/-- `LLMService.extract_entities`: any provider/parse failure is logged and
an empty dict is returned. -/
def llm_extract_entities (env : AgentEnv) (narrative : String) : Entities :=
  (env.llm_entities narrative).getD {}

/-- `LLMService.analyze_sentiment`: same soft-failure contract. -/
def llm_analyze_sentiment (env : AgentEnv) (text : String) : Sentiment :=
  (env.llm_sentiment text).getD {}

/-- `urgency_keywords` literal from
`ComplaintReaderAgent._detect_urgency_keywords`. -/
def reader_urgency_keywords : List String :=
  ["urgent", "emergency", "immediately", "asap", "critical",
   "fraud", "unauthorized", "stolen", "hacked", "dispute"]

/-- `ComplaintReaderAgent._detect_urgency_keywords`. -/
def detect_urgency_keywords (text : String) : List String :=
  reader_urgency_keywords.filter (fun k => pyInSubstr k (pyLower text))

/-- The five entity values of the extraction dict, in declaration order. -/
def entity_values (e : Entities) : List (Option String) :=
  [e.product, e.issue, e.company, e.amount, e.date]

/-- `ComplaintReaderAgent._calculate_complexity_score`. -/
def calculate_complexity_score (narrative : String) (entities : Entities) : ℚ :=
  let score : ℚ := 0
  let score :=
    if narrative.length > 500 then score + 2/10
    else if narrative.length > 200 then score + 1/10
    else score
  let entity_count := (entity_values entities).countP (fun v => strTruthy v)
  let score :=
    if entity_count > 3 then score + 3/10
    else if entity_count > 1 then score + 2/10
    else score
  let score :=
    if pyInSubstr "and" (pyLower narrative) || pyInSubstr "also" (pyLower narrative)
    then score + 2/10 else score
  let score := if strTruthy entities.amount then score + 3/10 else score
  min score 1

/-- The metadata dict built by `ComplaintReaderAgent._extract_metadata`. -/
structure ReaderMetadata where
  narrative_length : Nat
  word_count : Nat
  has_amount : Bool
  has_date : Bool
  urgency_keywords : List String
  complexity_score : ℚ
deriving Repr

/-- `ComplaintReaderAgent._extract_metadata`. -/
def extract_metadata (narrative : String) (entities : Entities) : ReaderMetadata :=
  { narrative_length := narrative.length,
    word_count := (pyWords narrative).length,
    has_amount := strTruthy entities.amount,
    has_date := strTruthy entities.date,
    urgency_keywords := detect_urgency_keywords narrative,
    complexity_score := calculate_complexity_score narrative entities }

/-- A processing-step record appended by each agent (wall-clock durations
are modelled as 0). -/
structure ProcessingStep where
  agent : String
  status : String
  execution_time : ℚ := 0
  output : List (String × String) := []
  error : Option String := none
deriving Repr

/-- The risk-assessment keys of the transient state that the orchestrator
reads for its messages. -/
structure RiskAssessmentState where
  risk_score : Option ℚ := none
  risk_category : Option String := none
  factors : List (String × String) := []
deriving Repr

/-- The `solution_metrics` sub-dict read by the orchestrator. -/
structure SolutionMetricsState where
  confidence : Option ℚ := none
deriving Repr

/-- The solution bundle of the transient state. -/
structure SolutionState where
  solution_metrics : SolutionMetricsState := {}
deriving Repr

/-- The transient `ComplaintState` of `app/models/schemas.py` (lines 22-47),
threaded through the six agents; conversation messages are kept as their
content strings. -/
structure ComplaintState where
  complaint_id : Nat
  tenant_id : String
  user_id : String
  narrative : String
  entities : Entities := {}
  sentiment : Sentiment := {}
  classification : Classification := {}
  similar_complaints : List SimilarComplaint := []
  benchmarks : List (String × String) := []
  risk_assessment : RiskAssessmentState := {}
  solution : SolutionState := {}
  feedback_analysis : List (String × String) := []
  redacted_narrative : String := ""
  pii_detected : Bool := false
  metadata : Option ReaderMetadata := none
  messages : List String := []
  current_agent : String := ""
  processing_steps : List ProcessingStep := []
  errors : List String := []

/-- `ComplaintReaderAgent.process`: PII detection and redaction, entity and
sentiment extraction on the redacted text (both soft-failing to empty
dicts), embedding persistence (which raises on provider failure and lands
the whole stage in the `except` branch: error appended, failed step
recorded, state returned), then metadata derivation and the success step.
The orchestrator always passes a database session, so the `if db:` guard is
taken. -/
def complaint_reader_process (env : AgentEnv) (st : ComplaintState) : ComplaintState :=
  let pii := env.pii_results st.narrative
  let redacted := env.anonymize st.narrative pii
  let entities := llm_extract_entities env redacted
  let sentiment := llm_analyze_sentiment env redacted
  if env.embed_fails then
    { st with
      errors := st.errors ++ ["complaint_reader: " ++ env.embed_error],
      processing_steps := st.processing_steps ++
        [{ agent := "complaint_reader", status := "failed", error := some env.embed_error }] }
  else
    let metadata := extract_metadata st.narrative entities
    { st with
      entities := entities, sentiment := sentiment, redacted_narrative := redacted,
      pii_detected := pii.length > 0, metadata := some metadata,
      current_agent := "complaint_reader",
      processing_steps := st.processing_steps ++
        [{ agent := "complaint_reader", status := "success",
           output := [("sentiment", (sentiment.sentiment.getD "neutral"))] }],
      messages := st.messages ++
        ["Complaint processed successfully. Sentiment: " ++ sentiment.sentiment.getD "neutral"] }

/-! ### Workflow Orchestrator (`app/agents/workflow.py`) -/

/-- Renders a rational for the conversation-message text (the exact `:.2f`
rendering is irrelevant to every theorem; only raised errors matter). -/
def fmt_rat (q : ℚ) : String :=
  toString q.num ++ "/" ++ toString q.den

/-- The module-level names bound by the import statements of
`app/agents/workflow.py` (lines 1-22). `time` is absent, although
`_send_agent_message` evaluates `time.time()` on line 193. -/
def workflow_module_imports : List String :=
  ["logging", "asyncio", "TypedDict", "Annotated", "List", "AsyncSession",
   "StateGraph", "END", "BaseMessage", "HumanMessage", "AIMessage", "ChatOpenAI",
   "get_db", "settings", "ComplaintState",
   "complaint_reader_agent", "complaint_sorter_agent", "stats_finder_agent",
   "risk_checker_agent", "solution_helper_agent", "feedback_logger_agent", "logger"]

/-- An entry of `agent_communication_log` (the wall-clock timestamp never
gets recorded: evaluating it is what raises). -/
structure CommunicationEntry where
  from_agent : String
  to_agent : String
  message : String
  complaint_id : Nat

/-- `ComplaintWorkflowGraph._send_agent_message` (lines 188-212): the
`communication_entry` dict literal begins with `"timestamp": time.time()`,
and `time` is not among the module's bound names, so evaluating it raises
`NameError` before anything is appended; the nominal path (dead under the
actual import list) appends the entry and the conversation message. -/
def send_agent_message (from_agent to_agent message : String)
    (log : List CommunicationEntry) (st : ComplaintState) :
    Except PyError (List CommunicationEntry × ComplaintState) :=
  if workflow_module_imports.contains "time" then
    .ok (log ++ [{ from_agent := from_agent, to_agent := to_agent, message := message,
                   complaint_id := st.complaint_id }],
         { st with messages := st.messages ++
             [from_agent ++ " to " ++ to_agent ++ ": " ++ message] })
  else
    .error (.nameError "time")

/-- `ComplaintWorkflowGraph._receive_agent_message`: surfaces the latest
logged message addressed to this agent for this complaint, if any. -/
def receive_agent_message (agent_name : String) (log : List CommunicationEntry)
    (st : ComplaintState) : ComplaintState :=
  match (log.filter (fun e => e.to_agent == agent_name &&
      e.complaint_id == st.complaint_id)).getLast? with
  | some entry =>
    { st with messages := st.messages ++ [agent_name ++ " received: " ++ entry.message] }
  | none => st

/-- Models `len()` of the extraction dict (null-valued keys collapsed into
absent fields, as everywhere in this embedding); feeds only message text. -/
def entities_len (e : Entities) : Nat :=
  (entity_values e).countP Option.isSome

/-- The message f-string of the reader node (line 73). -/
def reader_message (st : ComplaintState) : String :=
  "Entities extracted: " ++ toString (entities_len st.entities) ++
    ", PII detected: " ++ (if st.pii_detected then "True" else "False")

/-- The message f-string of the sorter node (line 93). -/
def sorter_message (st : ComplaintState) : String :=
  "Classification: " ++ st.classification.issue_category.getD "unknown" ++
    " with " ++ fmt_rat (st.classification.confidence_score.getD 0) ++ " confidence"

/-- The message f-string of the stats node (line 113). -/
def stats_message (st : ComplaintState) : String :=
  "Found " ++ toString st.similar_complaints.length ++
    " similar complaints, industry benchmark data available"

/-- The message f-string of the risk node (line 136). -/
def risk_message (st : ComplaintState) : String :=
  "Risk assessment: " ++ st.risk_assessment.risk_category.getD "medium" ++
    " risk, " ++ fmt_rat (st.risk_assessment.risk_score.getD 0) ++
    " score, mitigation strategies identified"

/-- The message f-string of the solution node (line 160). -/
def solution_message (st : ComplaintState) : String :=
  "Solution generated with " ++ fmt_rat (st.solution.solution_metrics.confidence.getD 0) ++
    " confidence, ready for feedback collection"

/-- The message f-string of the feedback node (line 182). -/
def feedback_message (st : ComplaintState) : String :=
  "Workflow completed successfully in " ++
    fmt_rat ((st.processing_steps.map (fun s => s.execution_time)).sum) ++
    "s, ready for user interaction"

/-- The `process(state, db)` behaviors of the five pipeline stages after the
reader. Each of those agents wraps its body in the same catch-all
`try/except` as the reader and always returns a state. Their bodies are not
embedded: every claim settled against the orchestrator is proved for all
possible behaviors of these stages, which is sound because the run is shown
to abort inside the first node, before any of them executes. -/
structure LaterAgents where
  sorter : ComplaintState → ComplaintState
  stats_finder : ComplaintState → ComplaintState
  risk_checker : ComplaintState → ComplaintState
  solution_helper : ComplaintState → ComplaintState
  feedback_logger : ComplaintState → ComplaintState

/-- `_complaint_reader_with_communication` (lines 58-77): the session scope
is modelled from the spec (4.2) as a working scoped session, so the agent
runs and the node then sends the inter-agent message. -/
def complaint_reader_node (env : AgentEnv)
    (s : List CommunicationEntry × ComplaintState) :
    Except PyError (List CommunicationEntry × ComplaintState) :=
  let result := complaint_reader_process env s.2
  send_agent_message "complaint_reader" "complaint_sorter" (reader_message result) s.1 result

/-- `_complaint_sorter_with_communication` (lines 79-97). -/
def complaint_sorter_node (later : LaterAgents)
    (s : List CommunicationEntry × ComplaintState) :
    Except PyError (List CommunicationEntry × ComplaintState) :=
  let st := receive_agent_message "complaint_sorter" s.1 s.2
  let result := later.sorter st
  send_agent_message "complaint_sorter" "stats_finder" (sorter_message result) s.1 result

/-- `_stats_finder_with_communication` (lines 99-117). -/
def stats_finder_node (later : LaterAgents)
    (s : List CommunicationEntry × ComplaintState) :
    Except PyError (List CommunicationEntry × ComplaintState) :=
  let st := receive_agent_message "stats_finder" s.1 s.2
  let result := later.stats_finder st
  send_agent_message "stats_finder" "risk_checker" (stats_message result) s.1 result

/-- `_risk_checker_with_communication` (lines 119-140). -/
def risk_checker_node (later : LaterAgents)
    (s : List CommunicationEntry × ComplaintState) :
    Except PyError (List CommunicationEntry × ComplaintState) :=
  let st := receive_agent_message "risk_checker" s.1 s.2
  let result := later.risk_checker st
  send_agent_message "risk_checker" "solution_helper" (risk_message result) s.1 result

/-- `_solution_helper_with_communication` (lines 142-164). -/
def solution_helper_node (later : LaterAgents)
    (s : List CommunicationEntry × ComplaintState) :
    Except PyError (List CommunicationEntry × ComplaintState) :=
  let st := receive_agent_message "solution_helper" s.1 s.2
  let result := later.solution_helper st
  send_agent_message "solution_helper" "feedback_logger" (solution_message result) s.1 result

/-- `_feedback_logger_with_communication` (lines 166-186). -/
def feedback_logger_node (later : LaterAgents)
    (s : List CommunicationEntry × ComplaintState) :
    Except PyError (List CommunicationEntry × ComplaintState) :=
  let st := receive_agent_message "feedback_logger" s.1 s.2
  let result := later.feedback_logger st
  send_agent_message "feedback_logger" "workflow_complete" (feedback_message result) s.1 result

/-- Sequencing of one LangGraph stage after the accumulated run so far: an
exception escaping any node aborts the remaining stages. -/
def run_stage {α : Type} (next : α → Except PyError α) :
    Except PyError α → Except PyError α
  | .error e => .error e
  | .ok s => next s

/-- `graph.ainvoke` over the compiled linear graph
reader - sorter - stats - risk - solution - feedback. -/
def graph_ainvoke (env : AgentEnv) (later : LaterAgents)
    (s : List CommunicationEntry × ComplaintState) :
    Except PyError (List CommunicationEntry × ComplaintState) :=
  run_stage (feedback_logger_node later)
    (run_stage (solution_helper_node later)
      (run_stage (risk_checker_node later)
        (run_stage (stats_finder_node later)
          (run_stage (complaint_sorter_node later)
            (complaint_reader_node env s)))))

/-- `initial_state` literal of `process_complaint` (lines 248-269). -/
def workflow_initial_state (complaint_id : Nat)
    (narrative tenant_id user_id : String) : ComplaintState :=
  { complaint_id := complaint_id, tenant_id := tenant_id, user_id := user_id,
    narrative := narrative,
    messages := ["Process complaint: " ++ narrative] }

/-- The `results` sub-dict shape of the orchestrator summary and of the
failure wrapper. -/
structure WorkflowResultsBundle where
  redacted_narrative : String := ""
  entities : Entities := {}
  classification : Classification := {}
  risk_assessment : RiskAssessmentState := {}
  similar_complaints : List SimilarComplaint := []
  benchmarks : List (String × String) := []
  solution : SolutionState := {}
  feedback_analysis : List (String × String) := []
  metadata : Option ReaderMetadata := none

/-- The value actually returned by `process_complaint`: on success the raw
final `ComplaintState` — line 316 is `return final_state`, so the `result`
summary dict compiled on lines 281-311 is discarded — and on an
orchestrator-level exception the failure wrapper dict of lines 320-327,
whose `results`, `processing_steps` and `conversation` are empty literals
and which has no `errors` key. -/
inductive ProcessComplaintResult where
  | finalState (state : ComplaintState)
  | failure (complaint_id : Nat) (error : PyError)

/-- `workflow_result.get("processing_steps", [])` on the returned value. -/
def ProcessComplaintResult.steps : ProcessComplaintResult → List ProcessingStep
  | .finalState s => s.processing_steps
  | .failure _ _ => []

/-- `workflow_result.get("errors", [])` on the returned value: the failure
wrapper has no `errors` key. -/
def ProcessComplaintResult.error_list : ProcessComplaintResult → List String
  | .finalState s => s.errors
  | .failure _ _ => []

/-- `workflow_result.get("results", {})` on the returned value: the success
value is the raw `ComplaintState`, which has no `results` key, so the
lookup yields the empty dict; the failure wrapper carries the literal empty
results dict of line 324. -/
def ProcessComplaintResult.results : ProcessComplaintResult → WorkflowResultsBundle
  | .finalState _ => {}
  | .failure _ _ => {}

/-- `ComplaintWorkflowGraph.process_complaint` (lines 242-327). -/
def process_complaint (env : AgentEnv) (later : LaterAgents) (complaint_id : Nat)
    (narrative tenant_id user_id : String) : ProcessComplaintResult :=
  match graph_ainvoke env later
      ([], workflow_initial_state complaint_id narrative tenant_id user_id) with
  | .ok (_, final) => .finalState final
  | .error e => .failure complaint_id e

lemma send_agent_message_raises (from_agent to_agent message : String)
    (log : List CommunicationEntry) (st : ComplaintState) :
    send_agent_message from_agent to_agent message log st =
      .error (.nameError "time") := by
  have h : workflow_module_imports.contains "time" = false := rfl
  simp only [send_agent_message, h, Bool.false_eq_true, if_false]

/-- C1 (code defect): `workflow.py` evaluates `time.time()` inside
`_send_agent_message` without importing `time`; the NameError escapes the
first node, aborts the graph run right after the first agent, and
`process_complaint` returns the failure wrapper — zero processing-step
entries (not six) and no errors list — for every input, every provider
behavior, and every behavior of the five later stages. No exception
reaches the caller. -/
theorem process_complaint_aborts_on_missing_time_import
    (env : AgentEnv) (later : LaterAgents) (complaint_id : Nat)
    (narrative tenant_id user_id : String) :
    process_complaint env later complaint_id narrative tenant_id user_id =
      .failure complaint_id (.nameError "time") ∧
    (process_complaint env later complaint_id narrative tenant_id user_id).steps = [] ∧
    (process_complaint env later complaint_id narrative tenant_id user_id).error_list = [] := by
  have hnode : complaint_reader_node env
      ([], workflow_initial_state complaint_id narrative tenant_id user_id) =
      .error (.nameError "time") := by
    simp [complaint_reader_node, send_agent_message_raises]
  have hmain : process_complaint env later complaint_id narrative tenant_id user_id =
      .failure complaint_id (.nameError "time") := by
    simp [process_complaint, graph_ainvoke, hnode, run_stage]
  exact ⟨hmain, by rw [hmain]; rfl, by rw [hmain]; rfl⟩

/-! ### Complaint analysis endpoint (`backend/app/routers/complaints.py`) -/

/-- A row of `complaints_labels`. -/
structure ComplaintLabelRow where
  id : Nat
  complaint_id : Nat
  tenant_id : String
  product : Option String := none
  issue : Option String := none
  company : Option String := none
  confidence : Option ℚ := none
  created_at : Nat := 0
deriving Repr

/-- The database slice read by `get_complaint_analysis`. -/
structure AnalysisDb where
  complaints_raw : List ComplaintRow
  complaint_labels : List ComplaintLabelRow
  risk_scores : List RiskScoreRow

/-- The `ComplaintAnalysis` response schema. -/
structure ComplaintAnalysis where
  complaint_id : Nat
  entities : Entities
  classification : Classification
  risk_assessment : RiskAssessmentState
  similar_complaints : List SimilarComplaint
  benchmarks : List (String × String)

/-- `get_complaint_analysis` (lines 172-247): tenant-scoped lookup with 404;
when the complaint has no label rows or no risk rows, the workflow is run
synchronously and the analysis is built from
`workflow_result.get('results', {})`; otherwise the latest label and risk
rows are reshaped (similar complaints and benchmarks left empty). The ORM
relationship lists `complaint.labels` / `complaint.risk_scores` are the
tenant rows filtered by complaint id in insertion order. -/
def get_complaint_analysis (env : AgentEnv) (later : LaterAgents) (db : AnalysisDb)
    (current_user : User) (complaint_id : Nat) :
    Except HTTPException ComplaintAnalysis :=
  match scalar_one_or_none (db.complaints_raw.filter
      (fun c => c.id == complaint_id && c.tenant_id == current_user.tenant_id)) with
  | .error _ => .error { status_code := 500, detail := "Failed to retrieve complaint analysis" }
  | .ok none => .error { status_code := 404, detail := "Complaint not found" }
  | .ok (some complaint) =>
    let labels := db.complaint_labels.filter (fun l => l.complaint_id == complaint.id)
    let risks := db.risk_scores.filter (fun r => r.complaint_id == complaint.id)
    if labels.isEmpty ∨ risks.isEmpty then
      let workflow_result := process_complaint env later complaint_id complaint.narrative
        current_user.tenant_id current_user.id
      .ok { complaint_id := complaint_id,
            entities := workflow_result.results.entities,
            classification := workflow_result.results.classification,
            risk_assessment := workflow_result.results.risk_assessment,
            similar_complaints := workflow_result.results.similar_complaints,
            benchmarks := workflow_result.results.benchmarks }
    else
      let latest_label := labels.getLast?
      let latest_risk := risks.getLast?
      .ok { complaint_id := complaint_id,
            entities := { product := latest_label.bind (fun l => l.product),
                          issue := latest_label.bind (fun l => l.issue),
                          company := latest_label.bind (fun l => l.company) },
            classification := { product_category := latest_label.bind (fun l => l.product),
                                issue_category := latest_label.bind (fun l => l.issue) },
            risk_assessment := { risk_score := latest_risk.map (fun r => r.risk),
                                 risk_category := latest_risk.map (fun r => r.category),
                                 factors := (latest_risk.map (fun r => r.factors)).getD [] },
            similar_complaints := [], benchmarks := [] }

lemma process_complaint_results_empty (r : ProcessComplaintResult) :
    r.results = {} := by
  cases r <;> rfl

/-- C2 (code defect): for a tenant-owned complaint with no persisted label
or risk rows, the endpoint runs the workflow but returns an analysis whose
entities, classification, risk assessment, similar complaints and
benchmarks are all empty — for every provider behavior and every behavior
of the later stages — because `process_complaint` returns the raw final
state (which has no `results` key) or the failure wrapper (whose `results`
is the empty literal), while the endpoint reads
`workflow_result.get('results', {})`. -/
theorem get_complaint_analysis_empty_on_fresh_complaint
    (env : AgentEnv) (later : LaterAgents) (db : AnalysisDb) (current_user : User)
    (complaint_id : Nat) (complaint : ComplaintRow)
    (hfound : db.complaints_raw.filter
      (fun c => c.id == complaint_id && c.tenant_id == current_user.tenant_id) = [complaint])
    (hnolabels : db.complaint_labels.filter (fun l => l.complaint_id == complaint.id) = []) :
    get_complaint_analysis env later db current_user complaint_id =
      .ok { complaint_id := complaint_id, entities := {}, classification := {},
            risk_assessment := {}, similar_complaints := [], benchmarks := [] } := by
  simp only [get_complaint_analysis, hfound, scalar_one_or_none, hnolabels,
    List.isEmpty_nil, true_or, if_true, process_complaint_results_empty]

/-- Concrete complaint for the C2 witness: owned by tenant "t1", no label
or risk rows anywhere. -/
def fresh_complaint : ComplaintRow :=
  { id := 7, tenant_id := "t1", narrative := "Unauthorized charge of 500 dollars",
    created_at := 50 }

/-- Concrete database for the C2 witness. -/
def fresh_db : AnalysisDb :=
  { complaints_raw := [fresh_complaint], complaint_labels := [], risk_scores := [] }

/-- Trivial provider environment for the C2 witness: no PII found, the
anonymizer returns the text unchanged, and every LLM and embedding call
fails (a provider outage). -/
def outage_env : AgentEnv :=
  { pii_results := fun _ => [], anonymize := fun text _ => text,
    llm_entities := fun _ => none, llm_sentiment := fun _ => none,
    embed_fails := true, embed_error := "Connection error" }

/-- Identity behaviors for the five later stages, for the witnesses. -/
def idle_later_agents : LaterAgents :=
  { sorter := id, stats_finder := id, risk_checker := id,
    solution_helper := id, feedback_logger := id }

/-- Witness for C2 at the concrete fresh complaint: the hypotheses hold and
the endpoint answers with the all-empty analysis. -/
theorem get_complaint_analysis_empty_on_fresh_complaint_witness :
    fresh_db.complaints_raw.filter
      (fun c => c.id == 7 && c.tenant_id == witness_admin.tenant_id) = [fresh_complaint] ∧
    fresh_db.complaint_labels.filter (fun l => l.complaint_id == fresh_complaint.id) = [] ∧
    get_complaint_analysis outage_env idle_later_agents fresh_db witness_admin 7 =
      .ok { complaint_id := 7, entities := {}, classification := {},
            risk_assessment := {}, similar_complaints := [], benchmarks := [] } :=
  ⟨rfl, rfl,
    get_complaint_analysis_empty_on_fresh_complaint outage_env idle_later_agents fresh_db
      witness_admin 7 fresh_complaint rfl rfl⟩

end AgentX
